import Mathlib

/-!
# Verification of `book_scraper.py` (Assignment 1)

Shallow embedding of the scraper in `src/Assignment 1/book_scraper.py`:
the rating decoder `extract_rating_int` and the pagination driver
`scrape_all_pages`, together with the per-book field extraction it performs.

Modelling conventions:

* An HTML page is modelled as the view the scraper takes of it after
  `BeautifulSoup` parsing: the ordered list of `article.product_pod`
  containers (`Page.books`) and the optional `li.next` element
  (`Page.nextLi`).  Each container exposes exactly the sub-elements and
  attributes the code reads.
* `find(...)` returning no element is `Option.none`; Python code that then
  accesses an attribute or method on `None` raises `AttributeError`, which we
  model as `ScrapeError.attributeError`.
* The network (`requests.get` + `raise_for_status` + `BeautifulSoup`) is a
  function `net : String → Except NetError Page`: either the parsed page for
  a URL, or an HTTP / transport failure (both of which raise in Python).
* The Python `while True` loop has no termination guarantee (the spec calls
  the unbounded next-chain a known limitation), so the loop takes explicit
  fuel; `none` means the fuel ran out, `some` means the Python run finished
  (normally or with an exception).  The loop additionally records the trace
  of URLs passed to `requests.get`, in order, so that fetch counts and fetch
  order are statable.
* Python string methods (`lower`, `strip`, `replace`, splitting) are modelled
  as structurally recursive functions on the character list of the string
  (`pyLower`, `pyStrip`, ...), faithful on ASCII, so that every definition
  evaluates inside the kernel.
* Python `float(...)` is modelled as an exact decimal parser into `ℚ`
  (optional sign, digits with at most one decimal point); exponents,
  `inf`/`nan` and digit-grouping underscores are outside the model, which is
  faithful on every price string this program's claims exercise.
-/

/-! ## Python string primitives -/

/-- Python `s.lower()`, on ASCII: lower-case every character. -/
def pyLower (s : String) : String :=
  ⟨s.data.map Char.toLower⟩

/-- Python `s.strip()`: remove leading and trailing whitespace. -/
def pyStrip (s : String) : String :=
  ⟨((s.data.dropWhile Char.isWhitespace).reverse.dropWhile Char.isWhitespace).reverse⟩

/-- Python `s.replace(c, '')` for a one-character pattern: remove every
occurrence of the character `c`. -/
def pyRemoveChar (s : String) (c : Char) : String :=
  ⟨s.data.filter (fun a => a ≠ c)⟩

/-- Split a character list at every occurrence of the character `c`
(Python `s.split(c)`; used to model decimal-point splitting and URL paths). -/
def splitOnChar (c : Char) : List Char → List (List Char)
  | [] => [[]]
  | a :: rest =>
    match splitOnChar c rest with
    | [] => [[a]]
    | seg :: segs =>
      if a = c then [] :: seg :: segs
      else (a :: seg) :: segs

/-- Does `sep` occur as a contiguous sublist of `l`? -/
def hasSub (sep : List Char) : List Char → Bool
  | [] => sep.isEmpty
  | a :: rest => sep.isPrefixOf (a :: rest) || hasSub sep rest

/-- Split `l` at the first occurrence of `sep`: `some (before, after)`,
or `none` when `sep` does not occur. -/
def firstSplit (sep : List Char) : List Char → Option (List Char × List Char)
  | [] => if sep.isEmpty then some ([], []) else none
  | a :: rest =>
    if sep.isPrefixOf (a :: rest) then some ([], (a :: rest).drop sep.length)
    else
      match firstSplit sep rest with
      | some (p, q) => some (a :: p, q)
      | none => none

/-- The numeric value of a digit string. -/
def digitsVal (l : List Char) : Nat :=
  l.foldl (fun n c => 10 * n + (c.toNat - 48)) 0

/-- Python `float(...)` on an already-stripped string, as an exact decimal
parser into `ℚ`: optional sign, then digits with at most one `'.'` and at
least one digit.  A string outside this grammar raises `ValueError` in
Python, modelled as `none`.  (Exponents, `inf`/`nan` and underscore digit
grouping are outside the model.) -/
def parseFloat (s : String) : Option ℚ :=
  let (sign, body) : Int × List Char :=
    match s.data with
    | '-' :: rest => (-1, rest)
    | '+' :: rest => (1, rest)
    | l => (1, l)
  match splitOnChar '.' body with
  | [ip] =>
    if ip ≠ [] ∧ ip.all Char.isDigit then
      some (mkRat (sign * digitsVal ip) 1)
    else none
  | [ip, fp] =>
    if (ip ≠ [] ∨ fp ≠ []) ∧ ip.all Char.isDigit ∧ fp.all Char.isDigit then
      some (mkRat (sign * (digitsVal ip * 10 ^ fp.length + digitsVal fp)) (10 ^ fp.length))
    else none
  | _ => none

/-- `urllib.parse.urljoin(base, url)` (Python standard library), restricted
to the cases this scraper can exercise: an absolute `url` (containing
`"://"`) replaces the base; a `url` starting with `"/"` keeps the base's
scheme and authority; otherwise `url` replaces everything after the last
`"/"` of the base's path.  Dot-segment normalization and scheme-only
references are outside the model. -/
def urljoin (base url : String) : String :=
  if url = "" then base
  else if hasSub "://".data url.data then url
  else
    match firstSplit "://".data base.data with
    | some (scheme, rest) =>
      match splitOnChar '/' rest with
      | [] => url
      | host :: pathSegs =>
        match url.data with
        | '/' :: _ => String.mk scheme ++ "://" ++ String.mk host ++ url
        | _ =>
          String.mk scheme ++ "://" ++ String.mk host ++ "/" ++
            String.intercalate "/" (pathSegs.dropLast.map String.mk ++ [url])
    | none => url

/-! ## The scraper's view of a page -/

/-- The `'title'` and `'href'` attributes of an `<a>` tag, each possibly
absent (`tag.get('title', '')` defaults, `tag['href']` raises `KeyError`). -/
structure Anchor where
  titleAttr : Option String
  href : Option String
deriving Repr, DecidableEq

/-- The `<h3>` element of a book container; `h3.find('a')` may find nothing. -/
structure H3 where
  a : Option Anchor
deriving Repr, DecidableEq

/-- A `<p class="star-rating ...">` element; `tag.get('class', [])` reads the
class attribute, defaulting to the empty list when the attribute is absent. -/
structure StarTag where
  classAttr : Option (List String)
deriving Repr, DecidableEq

/-- The `<li class="next">` pagination element; it may or may not contain an
`<a>` tag. -/
structure NextLi where
  a : Option Anchor
deriving Repr, DecidableEq

/-- One `article.product_pod` container, reduced to the sub-elements the
scraper reads: the `<h3>` (for the title link), the text of
`<p class="price_color">` (none when the element is missing), and the
optional `<p class="star-rating">` element. -/
structure Book where
  h3 : Option H3
  priceColor : Option String
  starRating : Option StarTag
deriving Repr, DecidableEq

/-- A parsed page, as the scraper sees it: the ordered
`soup.find_all('article', class_='product_pod')` result and the optional
`soup.find('li', class_='next')` result. -/
structure Page where
  books : List Book
  nextLi : Option NextLi
deriving Repr, DecidableEq

/-- One item record: `{'title': ..., 'price': ..., 'rating': ...}`. -/
structure Record where
  title : String
  price : ℚ
  rating : Option Nat
deriving Repr, DecidableEq

/-- Failure of one fetch: `response.raise_for_status()` on a non-2xx status,
or a transport-level exception (timeout, connection error) from
`requests.get`. -/
inductive NetError where
  | httpStatus (code : Nat)
  | transport
deriving Repr, DecidableEq

/-- An exception aborting the run: a propagated fetch failure, a Python
`AttributeError` (method/attribute access on a `find` that returned `None`),
a `ValueError` from `float(...)`, or a `KeyError` from `tag['href']`. -/
inductive ScrapeError where
  | network (e : NetError)
  | attributeError
  | valueError
  | keyError
deriving Repr, DecidableEq

/-! ## The scraper itself -/

/-- The `mapping` dict of `extract_rating_int` together with `.get`:
`{'one': 1, 'two': 2, 'three': 3, 'four': 4, 'five': 5}.get(word)`. -/
def ratingMapping (word : String) : Option Nat :=
  if word = "one" then some 1
  else if word = "two" then some 2
  else if word = "three" then some 3
  else if word = "four" then some 4
  else if word = "five" then some 5
  else none

/-- `extract_rating_int(star_tag)`: convert the star-rating class list
(e.g. `['star-rating', 'Three']`) to an integer 1-5, or `None`. -/
def extract_rating_int (star_tag : Option StarTag) : Option Nat :=
  match star_tag with
  | none => none
  | some tag =>
    let classes := tag.classAttr.getD []
    let words := classes.filter (fun c => pyLower c ≠ "star-rating")
    match words with
    | [] => none
    | w :: _ => ratingMapping (pyLower w)

/-- The body of the per-book loop in `scrape_all_pages`:

```
title_tag = book.find('h3').find('a')
title = title_tag.get('title', '').strip()
price_text = book.find('p', class_='price_color').text.strip()
price = float(price_text.replace('£', '').strip())
rating_tag = book.find('p', class_='star-rating')
rating = extract_rating_int(rating_tag)
results.append({'title': title, 'price': price, 'rating': rating})
```

A `find` that returns `None` makes the following attribute access raise. -/
def extractBook (book : Book) : Except ScrapeError Record :=
  match book.h3 with
  | none => .error .attributeError
  | some h3 =>
    match h3.a with
    | none => .error .attributeError
    | some title_tag =>
      let title := pyStrip (title_tag.titleAttr.getD "")
      match book.priceColor with
      | none => .error .attributeError
      | some priceText =>
        let price_text := pyStrip priceText
        match parseFloat (pyStrip (pyRemoveChar price_text '£')) with
        | none => .error .valueError
        | some price =>
          .ok { title := title, price := price,
                rating := extract_rating_int book.starRating }

/-- The `for book in books` extraction loop: records in container order; the
first raised exception propagates and aborts the loop. -/
def extractBooks : List Book → Except ScrapeError (List Record)
  | [] => .ok []
  | b :: bs =>
    match extractBook b with
    | .error e => .error e
    | .ok r =>
      match extractBooks bs with
      | .error e => .error e
      | .ok rs => .ok (r :: rs)

/-- The `while True` loop of `scrape_all_pages`, with explicit fuel and an
explicit trace of the URLs passed to `requests.get`, in fetch order.
`none` means the fuel ran out (the Python loop would still be running);
`some (trace, outcome)` means the Python run finished with that fetch trace,
either returning the accumulated records or raising. -/
def scrapeLoop (net : String → Except NetError Page) :
    Nat → String → List Record → List String →
    Option (List String × Except ScrapeError (List Record))
  | 0, _, _, _ => none
  | fuel + 1, url, results, trace =>
    let trace := trace ++ [url]
    match net url with
    | .error e => some (trace, .error (.network e))
    | .ok soup =>
      let books := soup.books
      if books.isEmpty then
        some (trace, .ok results)
      else
        match extractBooks books with
        | .error e => some (trace, .error e)
        | .ok recs =>
          let results := results ++ recs
          match soup.nextLi with
          | some next_li =>
            match next_li.a with
            | some link =>
              match link.href with
              | some next_href =>
                scrapeLoop net fuel (urljoin url next_href) results trace
              | none => some (trace, .error .keyError)
            | none => some (trace, .ok results)
          | none => some (trace, .ok results)

/-- `scrape_all_pages(base_url)`: run the loop from the base URL with empty
accumulator and empty fetch trace. -/
def scrape_all_pages (net : String → Except NetError Page) (fuel : Nat)
    (base_url : String) :
    Option (List String × Except ScrapeError (List Record)) :=
  scrapeLoop net fuel base_url [] []

/-- The next-page href the loop would follow from a page: present exactly
when `li.next` exists, contains an `<a>`, and that `<a>` has an `href`. -/
def nextHrefOf (page : Page) : Option String :=
  match page.nextLi with
  | some next_li =>
    match next_li.a with
    | some link => link.href
    | none => none
  | none => none

/-- A book whose price cannot be extracted: the `p.price_color` element is
missing, or its text does not parse as a number once trimmed and stripped of
`'£'`. -/
def priceFails (b : Book) : Prop :=
  b.priceColor = none ∨
    ∃ s, b.priceColor = some s ∧
      parseFloat (pyStrip (pyRemoveChar (pyStrip s) '£')) = none

/-- One link of the pagination chain: the page at `u` has a followable next
href, and `v` is that href resolved against `u` (not against any other URL). -/
def chainStep (net : String → Except NetError Page) (u v : String) : Bool :=
  match net u with
  | .ok page =>
    match nextHrefOf page with
    | some href => v == urljoin u href
    | none => false
  | .error _ => false

/-- Every consecutive pair of a fetch trace is a `chainStep`: each fetched
URL after the first is the previous page's next href resolved against the
previous page's own URL. -/
def chainOk (net : String → Except NetError Page) : List String → Bool
  | u :: v :: rest => chainStep net u v && chainOk net (v :: rest)
  | _ => true

/-! ## Concrete sample data (shared by witnesses and counterexamples) -/

/-- A well-formed sample container: title `" T "`, price text `" £1.00 "`,
three-star rating. -/
def sampleBook : Book :=
  { h3 := some { a := some { titleAttr := some " T ", href := none } },
    priceColor := some " £1.00 ", starRating := some ⟨some ["star-rating", "Three"]⟩ }

/-- The record `sampleBook` extracts to. -/
def sampleRecord : Record :=
  { title := "T", price := 1, rating := some 3 }

/-- First URL of the three-page sample chain. -/
def chainU0 : String := "http://x/a/b.html"

/-- Second URL of the sample chain: `"c/d.html"` resolved against `chainU0`. -/
def chainU1 : String := "http://x/a/c/d.html"

/-- Third URL of the sample chain: `"e.html"` resolved against `chainU1`. -/
def chainU2 : String := "http://x/a/c/e.html"

/-- A three-page site whose pages are linked by relative next hrefs
`"c/d.html"` and `"e.html"`; every other URL fails with a transport error. -/
def netChain : String → Except NetError Page := fun u =>
  if u = chainU0 then
    .ok { books := [sampleBook],
          nextLi := some { a := some { titleAttr := none, href := some "c/d.html" } } }
  else if u = chainU1 then
    .ok { books := [sampleBook],
          nextLi := some { a := some { titleAttr := none, href := some "e.html" } } }
  else if u = chainU2 then
    .ok { books := [sampleBook], nextLi := none }
  else .error .transport

/-! ## Helper lemmas -/

lemma extractBooks_ok_length {bs : List Book} {rs : List Record}
    (h : extractBooks bs = .ok rs) : rs.length = bs.length := by
  induction bs generalizing rs with
  | nil =>
    simp only [extractBooks] at h
    cases h
    rfl
  | cons b bs ih =>
    simp only [extractBooks] at h
    cases hb : extractBook b with
    | error e => rw [hb] at h; cases h
    | ok r =>
      rw [hb] at h
      cases hbs : extractBooks bs with
      | error e => rw [hbs] at h; cases h
      | ok rs' =>
        rw [hbs] at h
        cases h
        simp [ih hbs]

lemma extractBooks_ok_get {bs : List Book} {rs : List Record}
    (h : extractBooks bs = .ok rs) :
    ∀ i (hi : i < bs.length) (hi' : i < rs.length),
      extractBook (bs.get ⟨i, hi⟩) = .ok (rs.get ⟨i, hi'⟩) := by
  induction bs generalizing rs with
  | nil => intro i hi; simp at hi
  | cons b bs ih =>
    intro i hi hi'
    simp only [extractBooks] at h
    cases hb : extractBook b with
    | error e => rw [hb] at h; cases h
    | ok r =>
      rw [hb] at h
      cases hbs : extractBooks bs with
      | error e => rw [hbs] at h; cases h
      | ok rs' =>
        rw [hbs] at h
        cases h
        cases i with
        | zero => simpa using hb
        | succ j =>
          simp only [List.get]
          exact ih hbs j (by simpa using hi) (by simpa using hi')

lemma extractBooks_error_of_mem {bs : List Book} {b : Book} {e : ScrapeError}
    (hmem : b ∈ bs) (hb : extractBook b = .error e) :
    ∃ e', extractBooks bs = .error e' := by
  induction bs with
  | nil => cases hmem
  | cons a bs ih =>
    rcases List.mem_cons.mp hmem with rfl | hmem'
    · exact ⟨e, by simp [extractBooks, hb]⟩
    · cases ha : extractBook a with
      | error e'' => exact ⟨e'', by simp [extractBooks, ha]⟩
      | ok r =>
        obtain ⟨e', he'⟩ := ih hmem'
        exact ⟨e', by simp [extractBooks, ha, he']⟩

lemma priceFails_extractBook {b : Book} (hbad : priceFails b) :
    ∃ e, extractBook b = .error e := by
  cases hh3 : b.h3 with
  | none => exact ⟨.attributeError, by simp [extractBook, hh3]⟩
  | some h3 =>
    cases ha : h3.a with
    | none => exact ⟨.attributeError, by simp [extractBook, hh3, ha]⟩
    | some a =>
      rcases hbad with hnone | ⟨s, hs, hp⟩
      · exact ⟨.attributeError, by simp [extractBook, hh3, ha, hnone]⟩
      · exact ⟨.valueError, by simp [extractBook, hh3, ha, hs, hp]⟩

/-- One loop iteration on a page with no followable next link returns the
accumulated records plus this page's records, having fetched only this URL. -/
lemma scrapeLoop_last_page {net : String → Except NetError Page} {url : String}
    {page : Page} {recs : List Record} (fuel : Nat)
    (results : List Record) (trace : List String)
    (hnet : net url = .ok page) (hnext : page.nextLi = none)
    (hex : extractBooks page.books = .ok recs) :
    scrapeLoop net (fuel + 1) url results trace =
      some (trace ++ [url], .ok (results ++ recs)) := by
  cases hb : page.books with
  | nil =>
    rw [hb] at hex
    simp only [extractBooks] at hex
    cases hex
    simp [scrapeLoop, hnet, hb]
  | cons b bs =>
    rw [hb] at hex
    simp [scrapeLoop, hnet, hb, hex, hnext]

/-! ## Claims about the rating decoder -/

/-- C1: for a rating indicator whose class-token list consists of the base
marker `"star-rating"` (in any letter case) plus exactly one rank word from
one/two/three/four/five (in any letter case), in either order,
`extract_rating_int` returns the corresponding integer 1-5; in particular
`["Star-Rating", "Four"]` and `["star-rating", "FOUR"]` both decode to 4. -/
theorem rating_decodes_marker_plus_rank (m r : String) (k : Nat)
    (hm : pyLower m = "star-rating")
    (hr : (pyLower r = "one" ∧ k = 1) ∨ (pyLower r = "two" ∧ k = 2) ∨
          (pyLower r = "three" ∧ k = 3) ∨ (pyLower r = "four" ∧ k = 4) ∨
          (pyLower r = "five" ∧ k = 5)) :
    (extract_rating_int (some ⟨some [m, r]⟩) = some k ∧
      extract_rating_int (some ⟨some [r, m]⟩) = some k) ∧
    extract_rating_int (some ⟨some ["Star-Rating", "Four"]⟩) = some 4 ∧
    extract_rating_int (some ⟨some ["star-rating", "FOUR"]⟩) = some 4 := by
  refine ⟨?_, by decide, by decide⟩
  constructor <;>
    rcases hr with ⟨h, rfl⟩ | ⟨h, rfl⟩ | ⟨h, rfl⟩ | ⟨h, rfl⟩ | ⟨h, rfl⟩ <;>
      simp [extract_rating_int, List.filter, hm, h, ratingMapping]

/-- C1 witness: the theorem applied at `["Star-Rating", "Four"]`. -/
theorem rating_decodes_marker_plus_rank_witness :
    (extract_rating_int (some ⟨some ["Star-Rating", "Four"]⟩) = some 4 ∧
      extract_rating_int (some ⟨some ["Four", "Star-Rating"]⟩) = some 4) ∧
    extract_rating_int (some ⟨some ["Star-Rating", "Four"]⟩) = some 4 ∧
    extract_rating_int (some ⟨some ["star-rating", "FOUR"]⟩) = some 4 :=
  rating_decodes_marker_plus_rank "Star-Rating" "Four" 4 (by decide)
    (Or.inr (Or.inr (Or.inr (Or.inl (by decide)))))

/-- C2: `extract_rating_int` is total and returns `none` (Python `None`)
for an absent indicator, for a class list whose every token is the marker
(nothing remains after filtering — this includes the empty and missing class
list), and whenever the first remaining token is not a rank word. -/
theorem rating_decoder_absent_cases :
    extract_rating_int none = none ∧
    (∀ t : StarTag, (∀ c ∈ t.classAttr.getD [], pyLower c = "star-rating") →
      extract_rating_int (some t) = none) ∧
    (∀ (t : StarTag) (w : String),
      ((t.classAttr.getD []).filter (fun c => pyLower c ≠ "star-rating")).head? =
        some w →
      pyLower w ∉ (["one", "two", "three", "four", "five"] : List String) →
      extract_rating_int (some t) = none) := by
  refine ⟨rfl, ?_, ?_⟩
  · intro t h
    have hf : (t.classAttr.getD []).filter (fun c => pyLower c ≠ "star-rating") = [] := by
      rw [List.filter_eq_nil_iff]
      intro c hc
      simp [h c hc]
    simp only [ne_eq, decide_not] at hf
    simp [extract_rating_int, hf]
  · intro t w hw hnot
    rcases hf : (t.classAttr.getD []).filter (fun c => pyLower c ≠ "star-rating") with
      _ | ⟨a, rest⟩
    · rw [hf] at hw; cases hw
    · rw [hf] at hw
      simp only [List.head?] at hw
      cases hw
      simp only [List.mem_cons, List.mem_singleton] at hnot
      push_neg at hnot
      obtain ⟨h1, h2, h3, h4, h5, -⟩ := hnot
      simp only [ne_eq, decide_not] at hf
      simp [extract_rating_int, hf, ratingMapping, h1, h2, h3, h4, h5]

/-- C2 witness: the theorem applied to an indicator whose class tokens are
all the marker, and to one whose remaining token is not a rank word. -/
theorem rating_decoder_absent_cases_witness :
    extract_rating_int (some ⟨some ["star-rating", "STAR-RATING"]⟩) = none ∧
    extract_rating_int (some ⟨some ["star-rating", "Six"]⟩) = none :=
  ⟨rating_decoder_absent_cases.2.1 ⟨some ["star-rating", "STAR-RATING"]⟩ (by decide),
   rating_decoder_absent_cases.2.2 ⟨some ["star-rating", "Six"]⟩ "Six"
     (by decide) (by decide)⟩

/-! ## More concrete sample pages and sites -/

/-- A single page with two containers and no `li.next`. -/
def pageSingle : Page := { books := [sampleBook, sampleBook], nextLi := none }

/-- A one-page site serving `pageSingle`. -/
def netSingle : String → Except NetError Page := fun u =>
  if u = "http://s/p1.html" then .ok pageSingle else .error .transport

/-- A first page with zero item containers but a next link to `p2.html`. -/
def pageEmptyWithNext : Page :=
  { books := [],
    nextLi := some { a := some { titleAttr := none, href := some "p2.html" } } }

/-- A final page with one container and no next link. -/
def pageOneBook : Page := { books := [sampleBook], nextLi := none }

/-- A two-page site whose first page is empty but linked to the second. -/
def netEmptyFirst : String → Except NetError Page := fun u =>
  if u = "http://x/p1.html" then .ok pageEmptyWithNext
  else if u = "http://x/p2.html" then .ok pageOneBook
  else .error .transport

/-! ## Claims about the pagination driver -/

/-- C3: a run against a single page with `N` item containers and no `li.next`
performs exactly one fetch (the trace is `[url]`), terminates (the result is
`some`, for any fuel), and returns exactly `N` records. -/
theorem single_page_one_fetch (net : String → Except NetError Page)
    (fuel : Nat) (url : String) (page : Page) (recs : List Record)
    (hnet : net url = .ok page) (hnext : page.nextLi = none)
    (hex : extractBooks page.books = .ok recs) :
    scrape_all_pages net (fuel + 1) url = some ([url], .ok recs) ∧
    recs.length = page.books.length := by
  have h := scrapeLoop_last_page fuel [] [] hnet hnext hex
  exact ⟨by simpa [scrape_all_pages] using h, extractBooks_ok_length hex⟩

/-- C3 witness: the theorem applied to a concrete one-page site with two
containers. -/
theorem single_page_one_fetch_witness :
    scrape_all_pages netSingle 5 "http://s/p1.html" =
      some (["http://s/p1.html"], .ok [sampleRecord, sampleRecord]) ∧
    ([sampleRecord, sampleRecord] : List Record).length = pageSingle.books.length :=
  single_page_one_fetch netSingle 4 "http://s/p1.html" pageSingle
    [sampleRecord, sampleRecord] (by rfl) rfl (by rfl)

/-- C5: when the first fetched page contains zero item containers, the run
terminates without error after that one fetch and produces zero records
(whether or not the page has a next link). -/
theorem empty_first_page_zero_records (net : String → Except NetError Page)
    (fuel : Nat) (url : String) (page : Page)
    (hnet : net url = .ok page) (hempty : page.books = []) :
    scrape_all_pages net (fuel + 1) url = some ([url], .ok []) := by
  simp [scrape_all_pages, scrapeLoop, hnet, hempty]

/-- C5 witness: the theorem applied to a concrete empty first page (which
even carries a next link). -/
theorem empty_first_page_zero_records_witness :
    scrape_all_pages netEmptyFirst 7 "http://x/p1.html" =
      some (["http://x/p1.html"], .ok []) :=
  empty_first_page_zero_records netEmptyFirst 6 "http://x/p1.html"
    pageEmptyWithNext (by rfl) rfl

/-- C9: a fetch that fails (non-2xx status or transport error) aborts the
run at that point, whatever has been accumulated: the fetch trace extends
only by the failing URL (no retry, no further fetch) and the outcome is an
error carrying no record sequence. -/
theorem fetch_failure_aborts (net : String → Except NetError Page)
    (fuel : Nat) (url : String) (results : List Record) (trace : List String)
    (ne : NetError) (hnet : net url = .error ne) :
    scrapeLoop net (fuel + 1) url results trace =
      some (trace ++ [url], .error (.network ne)) := by
  simp [scrapeLoop, hnet]

/-- C9 witness: the theorem applied to a site that always answers 404,
mid-run (nonempty accumulator and trace). -/
theorem fetch_failure_aborts_witness :
    scrapeLoop (fun _ => .error (.httpStatus 404)) 3 "http://s/p9.html"
      [sampleRecord] ["http://s/p0.html"] =
      some (["http://s/p0.html", "http://s/p9.html"],
        .error (.network (.httpStatus 404))) :=
  fetch_failure_aborts (fun _ => .error (.httpStatus 404)) 2 "http://s/p9.html"
    [sampleRecord] ["http://s/p0.html"] (.httpStatus 404) rfl

/-- One loop iteration on a nonempty page with a followable next link
continues at the resolved next URL, carrying this page's records and the
fetch of this URL. -/
lemma scrapeLoop_follow_page {net : String → Except NetError Page}
    {url : String} {page : Page} {recs : List Record} {href : String}
    (fuel : Nat) (results : List Record) (trace : List String)
    (hnet : net url = .ok page) (hb : page.books ≠ [])
    (hex : extractBooks page.books = .ok recs)
    (hn : nextHrefOf page = some href) :
    scrapeLoop net (fuel + 1) url results trace =
      scrapeLoop net fuel (urljoin url href) (results ++ recs) (trace ++ [url]) := by
  rcases hli : page.nextLi with _ | li
  · simp [nextHrefOf, hli] at hn
  · rcases hlnk : li.a with _ | lnk
    · simp [nextHrefOf, hli, hlnk] at hn
    · simp only [nextHrefOf, hli, hlnk] at hn
      cases hbooks : page.books with
      | nil => exact absurd hbooks hb
      | cons b bs =>
        rw [hbooks] at hex
        simp [scrapeLoop, hnet, hbooks, hex, hli, hlnk, hn]

/-- C4 counterexample: a pair of linked pages (the first page's next href
resolves to the second page's URL, the second page has no next marker and
one container), yet the driver performs only ONE fetch and returns no
records — because the first page has zero item containers, the loop stops
before looking for the next link.  This refutes "fetches exactly twice" as
universally stated. -/
theorem two_linked_pages_counterexample :
    netEmptyFirst "http://x/p1.html" = .ok pageEmptyWithNext ∧
    nextHrefOf pageEmptyWithNext = some "p2.html" ∧
    urljoin "http://x/p1.html" "p2.html" = "http://x/p2.html" ∧
    netEmptyFirst "http://x/p2.html" = .ok pageOneBook ∧
    pageOneBook.nextLi = none ∧
    pageOneBook.books.length = 1 ∧
    scrape_all_pages netEmptyFirst 10 "http://x/p1.html" =
      some (["http://x/p1.html"], .ok []) :=
  ⟨rfl, rfl, by decide, rfl, rfl, rfl, by rfl⟩

/-- C4 (amended: page 1 additionally has at least one item container): for
linked pages — page 1 nonempty with a next href resolving to page 2's URL,
page 2 without next marker — the driver fetches exactly twice, page 1's URL
then page 2's, and returns page-1 records before page-2 records, each page's
records in container order (record `i` extracted from container `i`). -/
theorem two_linked_pages_amended (net : String → Except NetError Page)
    (fuel : Nat) (u1 : String) (p1 p2 : Page) (href : String)
    (r1 r2 : List Record)
    (h1 : net u1 = .ok p1) (hb : p1.books ≠ [])
    (hn1 : nextHrefOf p1 = some href)
    (h2 : net (urljoin u1 href) = .ok p2) (hn2 : p2.nextLi = none)
    (he1 : extractBooks p1.books = .ok r1)
    (he2 : extractBooks p2.books = .ok r2) :
    scrape_all_pages net (fuel + 2) u1 =
      some ([u1, urljoin u1 href], .ok (r1 ++ r2)) ∧
    r1.length = p1.books.length ∧ r2.length = p2.books.length ∧
    (∀ i (hi : i < p1.books.length) (hi' : i < r1.length),
      extractBook (p1.books.get ⟨i, hi⟩) = .ok (r1.get ⟨i, hi'⟩)) ∧
    (∀ i (hi : i < p2.books.length) (hi' : i < r2.length),
      extractBook (p2.books.get ⟨i, hi⟩) = .ok (r2.get ⟨i, hi'⟩)) := by
  refine ⟨?_, extractBooks_ok_length he1, extractBooks_ok_length he2,
    extractBooks_ok_get he1, extractBooks_ok_get he2⟩
  show scrapeLoop net ((fuel + 1) + 1) u1 [] [] = _
  rw [scrapeLoop_follow_page (fuel + 1) [] [] h1 hb he1 hn1]
  simpa using scrapeLoop_last_page fuel r1 [u1] h2 hn2 he2

/-- A two-page site: page 1 (one container) links to page 2 (two
containers) by the relative href `"p2.html"`; page 2 has no next link. -/
def netTwoPages : String → Except NetError Page := fun u =>
  if u = "http://s/cat/p1.html" then
    .ok { books := [sampleBook],
          nextLi := some { a := some { titleAttr := none, href := some "p2.html" } } }
  else if u = "http://s/cat/p2.html" then
    .ok { books := [sampleBook, sampleBook], nextLi := none }
  else .error .transport

/-- C4 witness: the amended theorem applied to `netTwoPages`. -/
theorem two_linked_pages_amended_witness :
    scrape_all_pages netTwoPages 2 "http://s/cat/p1.html" =
      some (["http://s/cat/p1.html", urljoin "http://s/cat/p1.html" "p2.html"],
        .ok ([sampleRecord] ++ [sampleRecord, sampleRecord])) ∧
    ([sampleRecord] : List Record).length = ([sampleBook] : List Book).length ∧
    ([sampleRecord, sampleRecord] : List Record).length =
      ([sampleBook, sampleBook] : List Book).length ∧
    (∀ i (hi : i < ([sampleBook] : List Book).length)
        (hi' : i < ([sampleRecord] : List Record).length),
      extractBook (([sampleBook] : List Book).get ⟨i, hi⟩) =
        .ok (([sampleRecord] : List Record).get ⟨i, hi'⟩)) ∧
    (∀ i (hi : i < ([sampleBook, sampleBook] : List Book).length)
        (hi' : i < ([sampleRecord, sampleRecord] : List Record).length),
      extractBook (([sampleBook, sampleBook] : List Book).get ⟨i, hi⟩) =
        .ok (([sampleRecord, sampleRecord] : List Record).get ⟨i, hi'⟩)) :=
  two_linked_pages_amended netTwoPages 0 "http://s/cat/p1.html"
    { books := [sampleBook],
      nextLi := some { a := some { titleAttr := none, href := some "p2.html" } } }
    { books := [sampleBook, sampleBook], nextLi := none } "p2.html"
    [sampleRecord] [sampleRecord, sampleRecord]
    (by rfl) (by decide) rfl (by rfl) rfl (by rfl) (by rfl)

/-- C8: whenever a fetched page has an item container whose price
sub-element is missing or whose price text does not parse as a number after
stripping `'£'`, the extraction loop raises, the run aborts with that error
after this single page's fetch, and no record sequence is returned. -/
theorem malformed_price_aborts_run (net : String → Except NetError Page)
    (fuel : Nat) (url : String) (page : Page) (b : Book)
    (hnet : net url = .ok page) (hmem : b ∈ page.books)
    (hbad : priceFails b) :
    ∃ e, extractBooks page.books = .error e ∧
      scrape_all_pages net (fuel + 1) url = some ([url], .error e) := by
  obtain ⟨e0, he0⟩ := priceFails_extractBook hbad
  obtain ⟨e, he⟩ := extractBooks_error_of_mem hmem he0
  refine ⟨e, he, ?_⟩
  cases hbooks : page.books with
  | nil => rw [hbooks] at hmem; cases hmem
  | cons b0 bs =>
    rw [hbooks] at he
    simp [scrape_all_pages, scrapeLoop, hnet, hbooks, he]

/-- A container whose price text `"£abc"` does not parse as a number. -/
def badPriceBook : Book :=
  { h3 := some { a := some { titleAttr := some "B", href := none } },
    priceColor := some "£abc", starRating := none }

/-- A one-page site whose page holds a well-formed container followed by
`badPriceBook`, and a next link that is never followed. -/
def netBadPrice : String → Except NetError Page := fun u =>
  if u = "http://s/bad.html" then
    .ok { books := [sampleBook, badPriceBook],
          nextLi := some { a := some { titleAttr := none, href := some "p2.html" } } }
  else .error .transport

/-- C8 witness: the theorem applied to `netBadPrice`. -/
theorem malformed_price_aborts_run_witness :
    ∃ e, extractBooks [sampleBook, badPriceBook] = .error e ∧
      scrape_all_pages netBadPrice 9 "http://s/bad.html" =
        some (["http://s/bad.html"], .error e) :=
  malformed_price_aborts_run netBadPrice 8 "http://s/bad.html"
    { books := [sampleBook, badPriceBook],
      nextLi := some { a := some { titleAttr := none, href := some "p2.html" } } }
    badPriceBook (by rfl) (by decide) (Or.inr ⟨"£abc", rfl, by rfl⟩)

/-- Every finished run's fetch trace extends the incoming trace with the
current URL followed by a chain in which each later URL is the previous
page's next href resolved against the previous page's own URL. -/
lemma scrapeLoop_trace_chain (net : String → Except NetError Page) :
    ∀ (fuel : Nat) (url : String) (results : List Record)
      (trace tr : List String) (out : Except ScrapeError (List Record)),
      scrapeLoop net fuel url results trace = some (tr, out) →
      ∃ rest, tr = trace ++ url :: rest ∧ chainOk net (url :: rest) = true := by
  intro fuel
  induction fuel with
  | zero => intro url results trace tr out h; simp [scrapeLoop] at h
  | succ n ih =>
    intro url results trace tr out h
    have term : ∀ {X : Except ScrapeError (List Record)},
        some (trace ++ [url], X) = some (tr, out) →
        ∃ rest, tr = trace ++ url :: rest ∧ chainOk net (url :: rest) = true := by
      intro X hX
      refine ⟨[], ?_, rfl⟩
      exact (congrArg Prod.fst (Option.some.inj hX)).symm
    simp only [scrapeLoop] at h
    cases hnet : net url with
    | error e =>
      rw [hnet] at h
      exact term h
    | ok soup =>
      rw [hnet] at h
      dsimp only at h
      by_cases hbe : soup.books.isEmpty
      · rw [if_pos hbe] at h
        exact term h
      · rw [if_neg hbe] at h
        cases hex : extractBooks soup.books with
        | error e =>
          rw [hex] at h
          exact term h
        | ok recs =>
          rw [hex] at h
          dsimp only at h
          cases hli : soup.nextLi with
          | none =>
            rw [hli] at h
            exact term h
          | some li =>
            rw [hli] at h
            dsimp only at h
            cases hla : li.a with
            | none =>
              rw [hla] at h
              exact term h
            | some lnk =>
              rw [hla] at h
              dsimp only at h
              cases hhref : lnk.href with
              | none =>
                rw [hhref] at h
                exact term h
              | some href =>
                rw [hhref] at h
                dsimp only at h
                obtain ⟨rest, htr, hch⟩ :=
                  ih (urljoin url href) (results ++ recs) (trace ++ [url]) tr out h
                refine ⟨urljoin url href :: rest, ?_, ?_⟩
                · rw [htr]; simp
                · simp [chainOk, chainStep, hnet, nextHrefOf, hli, hla, hhref, hch]

/-- C6: (general) in every finished run, each fetched URL after the first
is the previous page's next href resolved (by `urljoin`) against the
previous page's own URL; (concrete) on a chain of relative next hrefs this
differs from resolving against the original base URL: the third fetched URL
of `netChain` is not `urljoin base "e.html"`. -/
theorem next_url_resolved_against_current :
    (∀ (net : String → Except NetError Page) (fuel : Nat) (url : String)
      (tr : List String) (out : Except ScrapeError (List Record)),
      scrape_all_pages net fuel url = some (tr, out) →
      chainOk net tr = true) ∧
    scrape_all_pages netChain 10 chainU0 =
      some ([chainU0, chainU1, chainU2],
        .ok [sampleRecord, sampleRecord, sampleRecord]) ∧
    chainU1 = urljoin chainU0 "c/d.html" ∧
    chainU2 = urljoin chainU1 "e.html" ∧
    chainU2 ≠ urljoin chainU0 "e.html" := by
  refine ⟨?_, by rfl, by decide, by decide, by decide⟩
  intro net fuel url tr out h
  obtain ⟨rest, htr, hch⟩ :=
    scrapeLoop_trace_chain net fuel url [] [] tr out h
  rw [htr]
  simpa using hch

/-- C6 witness: the general part of the theorem applied to the concrete
three-page chain `netChain`. -/
theorem next_url_resolved_against_current_witness :
    chainOk netChain [chainU0, chainU1, chainU2] = true :=
  next_url_resolved_against_current.1 netChain 10 chainU0
    [chainU0, chainU1, chainU2]
    (.ok [sampleRecord, sampleRecord, sampleRecord]) (by rfl)

/-! ## Claims about field extraction -/

/-- C7: a container whose price text is `"£51.77"` up to surrounding
whitespace extracts (title link present) to a record whose price is exactly
the number 51.77: the text is trimmed, the `'£'` glyph stripped, and the
remainder parsed as a number. -/
theorem price_51_77_extracted (b : Book) (h3 : H3) (a : Anchor) (s : String)
    (hh : b.h3 = some h3) (ha : h3.a = some a)
    (hp : b.priceColor = some s) (hs : pyStrip s = "£51.77") :
    extractBook b = .ok { title := pyStrip (a.titleAttr.getD ""),
                          price := (51.77 : ℚ),
                          rating := extract_rating_int b.starRating } := by
  have hclean : pyStrip (pyRemoveChar (pyStrip s) '£') = "51.77" := by
    rw [hs]; decide
  have hval : parseFloat "51.77" = some (mkRat 5177 100) := by rfl
  have hnum : (mkRat 5177 100 : ℚ) = (51.77 : ℚ) := by
    norm_num [Rat.mkRat_eq_div]
  have hpf : parseFloat (pyStrip (pyRemoveChar (pyStrip s) '£')) =
      some (51.77 : ℚ) := by
    rw [hclean, hval, hnum]
  simp [extractBook, hh, ha, hp, hpf]

/-- A concrete container with whitespace around title and price text. -/
def bookAttic : Book :=
  { h3 := some { a := some { titleAttr := some " A Light in the Attic ",
                             href := none } },
    priceColor := some "  £51.77  ", starRating := some ⟨some ["star-rating", "Three"]⟩ }

/-- C7 witness: the theorem applied to `bookAttic`. -/
theorem price_51_77_extracted_witness :
    extractBook bookAttic = .ok { title := "A Light in the Attic",
                                  price := (51.77 : ℚ),
                                  rating := some 3 } :=
  price_51_77_extracted bookAttic
    { a := some { titleAttr := some " A Light in the Attic ", href := none } }
    { titleAttr := some " A Light in the Attic ", href := none }
    "  £51.77  " rfl rfl rfl (by rfl)

/-- C10: a container whose heading link has no `title` attribute does not
make extraction fail: the record is produced with the empty string as its
title (the `.get('title', '')` default, trimmed), while the price field of
the same pipeline is fatal when absent (see the malformed-price claim). -/
theorem missing_title_attribute_empty_title (b : Book) (h3 : H3) (a : Anchor)
    (s : String) (p : ℚ)
    (hh : b.h3 = some h3) (ha : h3.a = some a) (ht : a.titleAttr = none)
    (hp : b.priceColor = some s)
    (hparse : parseFloat (pyStrip (pyRemoveChar (pyStrip s) '£')) = some p) :
    extractBook b = .ok { title := "", price := p,
                          rating := extract_rating_int b.starRating } := by
  have hempty : pyStrip "" = "" := rfl
  simp [extractBook, hh, ha, ht, hp, hparse, hempty]

/-- A container whose `<a>` has no `title` attribute. -/
def bookNoTitle : Book :=
  { h3 := some { a := some { titleAttr := none, href := none } },
    priceColor := some "£1.00", starRating := none }

/-- C10 witness: the theorem applied to `bookNoTitle`. -/
theorem missing_title_attribute_empty_title_witness :
    extractBook bookNoTitle = .ok { title := "", price := (1 : ℚ),
                                    rating := none } :=
  missing_title_attribute_empty_title bookNoTitle
    { a := some { titleAttr := none, href := none } }
    { titleAttr := none, href := none } "£1.00" (1 : ℚ)
    rfl rfl rfl rfl (by rfl)
